import Mathlib

/-!
Verification of the `VehicleManager` facade of `hyundai_kia_connect_api`
(`src/hyundai_kia_connect_api/VehicleManager.py`).

The facade is embedded shallowly:

* The backend client (`ApiImpl`, external to the module) is an oracle: a
  record of response functions, one per capability the facade consumes.
  Each returns `Except PyError _` so a backend failure can be modelled.
* The mutable state the facade owns or reads — the vehicle registry
  (`self.vehicles`) and the backend's token (`self.api.token`) — is an
  explicit `MState` threaded through every operation.
* Each facade operation returns a `Res α`: the list of backend calls it
  issued in order (`trace`), the state after the call (`state`), and its
  outcome (`out`), where `.error e` models a propagating Python exception.
* Timestamps are integers (seconds, UTC); `now` is passed explicitly where
  the source calls `datetime.now(pytz.utc)`.
* `const.py` (the `REGIONS`/`BRANDS` tables and region/brand names) is not
  part of the given sources; those tables are modelled from the spec.
* The source method `VehicleManager.initialize` is embedded under the name
  `initializeVM`.
-/

/-- `Token` of `Token.py` as the spec's data model keeps it: only the
validity-expiry timestamp is read by the facade. -/
structure Token where
  valid_until : Int
deriving DecidableEq

/-- `Vehicle` of `Vehicle.py` as the spec's data model keeps it: unique
identifier, last-updated timestamp (UTC) and an opaque cached payload. -/
structure Vehicle where
  id : String
  last_updated_at : Int
  payload : Nat
deriving DecidableEq

/-- `ClimateRequestOptions`: passed through opaquely by the facade. -/
structure ClimateRequestOptions where
  options : Nat
deriving DecidableEq

/-- `VEHICLE_LOCK_ACTION` of `const.py`. -/
inductive VEHICLE_LOCK_ACTION where
  | LOCK
  | UNLOCK
deriving DecidableEq

/-- `CHARGE_PORT_ACTION` of `const.py`. -/
inductive CHARGE_PORT_ACTION where
  | OPEN
  | CLOSE
deriving DecidableEq

/-- The argument `api.lock_action` receives: the source passes either a
`VEHICLE_LOCK_ACTION` (lock/unlock) or a `CHARGE_PORT_ACTION`
(open/close charge port) to the same backend method. -/
abbrev LockArg := Sum VEHICLE_LOCK_ACTION CHARGE_PORT_ACTION

/-- Python exceptions the embedding distinguishes: the locally raised
`VehicleNotFoundError`, the built-in `KeyError` (failed dict lookup) and
`AttributeError` (attribute of `None`), and opaque backend-originated
errors. -/
inductive PyError where
  | VehicleNotFoundError (msg : String)
  | KeyError (key : Nat)
  | AttributeError (msg : String)
  | BackendError (code : Nat)
deriving DecidableEq

/-- One backend call as the facade issues it, recorded in a trace. -/
inductive ApiCall where
  | login (username password : String) (pin : Option String)
  | get_vehicles
  | update_vehicle_with_cached_state (vehicle : Vehicle)
  | update_geocoded_location (vehicle : Vehicle) (use_email : Bool)
  | force_refresh_vehicle_state (vehicle : Vehicle)
  | refresh_vehicles (vehicles : List Vehicle)
  | lock_action (vehicle : Vehicle) (action : LockArg)
  | start_climate (vehicle : Vehicle) (options : ClimateRequestOptions)
  | stop_climate (vehicle : Vehicle)
  | start_charge (vehicle : Vehicle)
  | stop_charge (vehicle : Vehicle)
  | set_charge_limits (vehicle : Vehicle) (ac dc : Int)
  | check_action_status (vehicle : Vehicle) (action_id : String)
deriving DecidableEq

/-- The backend client as an oracle: what each capability the facade
consumes would return. `login_result` yields the token the backend holds
after a successful login. -/
structure ApiImpl where
  login_result : String → String → Option String → Except PyError Token
  get_vehicles_result : Except PyError (List Vehicle)
  update_cached_result : Vehicle → Except PyError Unit
  update_geocoded_result : Vehicle → Bool → Except PyError Unit
  force_refresh_result : Vehicle → Except PyError Unit
  refresh_vehicles_result : List Vehicle → Except PyError Unit
  lock_action_result : Vehicle → LockArg → Except PyError String
  start_climate_result : Vehicle → ClimateRequestOptions → Except PyError String
  stop_climate_result : Vehicle → Except PyError String
  start_charge_result : Vehicle → Except PyError String
  stop_charge_result : Vehicle → Except PyError String
  set_charge_limits_result : Vehicle → Int → Int → Except PyError String
  check_action_status_result : Vehicle → String → Except PyError String

/-- The facade's mutable state: the backend's token (`self.api.token`) and
the registry (`self.vehicles`). -/
structure MState where
  token : Option Token
  vehicles : List Vehicle
deriving DecidableEq

/-- The constructor-stored configuration of a `VehicleManager`. -/
structure VehicleManager where
  region : Nat
  brand : Nat
  username : String
  password : String
  pin : String
  geocode_api_enable : Bool
  geocode_api_use_email : Bool
deriving DecidableEq

deriving instance DecidableEq for Except

/-- Outcome of one facade operation: the backend calls issued in order, the
state afterwards, and the returned value or propagating exception. -/
structure Res (α : Type) where
  trace : List ApiCall
  state : MState
  out : Except PyError α
deriving DecidableEq

/-! ## Backend selection (`get_implementation_by_region_brand`) -/

def REGION_EUROPE : String := "Europe"

def REGION_CANADA : String := "Canada"

def REGION_USA : String := "USA"

def BRAND_KIA : String := "Kia"

def BRAND_HYUNDAI : String := "Hyundai"

/-- Modelled from the spec: the `REGIONS` dict of `const.py` (not among the
given sources) maps integer region codes to the three region names the spec
enumerates; a code outside the table makes `REGIONS[region]` raise
`KeyError`. -/
def REGIONS (region : Nat) : Option String :=
  if region = 1 then some REGION_EUROPE
  else if region = 2 then some REGION_CANADA
  else if region = 3 then some REGION_USA
  else none

/-- Modelled from the spec: the `BRANDS` dict of `const.py` (not among the
given sources) maps integer brand codes to the two brand names the spec
enumerates. -/
def BRANDS (brand : Nat) : Option String :=
  if brand = 1 then some BRAND_KIA
  else if brand = 2 then some BRAND_HYUNDAI
  else none

/-- The four backend client classes the selector can construct. -/
inductive ApiClient where
  | KiaUvoApiCA (region brand : Nat)
  | KiaUvoApiEU (region brand : Nat)
  | HyundaiBlueLinkAPIUSA (region brand : Nat)
  | KiaUvoAPIUSA (region brand : Nat)
deriving DecidableEq

/-- `VehicleManager.get_implementation_by_region_brand`: the if/elif chain
over `REGIONS[region]` and `BRANDS[brand]`. A failed dict lookup raises
`KeyError`; `BRANDS[brand]` is only evaluated when the region is USA
(short-circuit `and`); when no branch matches the Python function falls off
the end and returns `None`, modelled as `.ok none`. -/
def get_implementation_by_region_brand (region brand : Nat) :
    Except PyError (Option ApiClient) :=
  match REGIONS region with
  | none => .error (.KeyError region)
  | some r =>
    if r = REGION_CANADA then .ok (some (.KiaUvoApiCA region brand))
    else if r = REGION_EUROPE then .ok (some (.KiaUvoApiEU region brand))
    else if r = REGION_USA then
      match BRANDS brand with
      | none => .error (.KeyError brand)
      | some b =>
        if b = BRAND_HYUNDAI then .ok (some (.HyundaiBlueLinkAPIUSA region brand))
        else if b = BRAND_KIA then .ok (some (.KiaUvoAPIUSA region brand))
        else .ok none
    else .ok none

/-! ## Registry lookup (`get_vehicle`) -/

/-- The `for v in self.vehicles` loop of `get_vehicle`: first vehicle whose
`id` equals `vehicle_id`, else `VehicleNotFoundError`. -/
def get_vehicle_loop (vehicle_id : String) : List Vehicle → Except PyError Vehicle
  | [] => .error (.VehicleNotFoundError "No vehicle found with this ID")
  | v :: rest =>
    if v.id = vehicle_id then .ok v else get_vehicle_loop vehicle_id rest

/-- `VehicleManager.get_vehicle`. -/
def get_vehicle (s : MState) (vehicle_id : String) : Except PyError Vehicle :=
  get_vehicle_loop vehicle_id s.vehicles

/-! ## Refresh operations -/

/-- `VehicleManager.update_vehicle_with_cached_state`: backend cached-state
update, then, when `self.geocode_api_enable == True`, the geocode
enrichment. Registry and token are untouched. -/
def update_vehicle_with_cached_state (api : ApiImpl) (mgr : VehicleManager)
    (s : MState) (vehicle : Vehicle) : Res Unit :=
  match api.update_cached_result vehicle with
  | .error e => ⟨[.update_vehicle_with_cached_state vehicle], s, .error e⟩
  | .ok _ =>
    if mgr.geocode_api_enable = true then
      ⟨[.update_vehicle_with_cached_state vehicle,
        .update_geocoded_location vehicle mgr.geocode_api_use_email], s,
        api.update_geocoded_result vehicle mgr.geocode_api_use_email⟩
    else
      ⟨[.update_vehicle_with_cached_state vehicle], s, .ok ()⟩

/-- The `for vehicle in self.vehicles` loop of
`update_all_vehicles_with_cached_state`: an exception mid-loop propagates
at once, skipping the remaining vehicles. -/
def update_all_loop (api : ApiImpl) (mgr : VehicleManager) :
    MState → List Vehicle → Res Unit
  | s, [] => ⟨[], s, .ok ()⟩
  | s, vehicle :: rest =>
    let r := update_vehicle_with_cached_state api mgr s vehicle
    match r.out with
    | .error e => ⟨r.trace, r.state, .error e⟩
    | .ok _ =>
      let r2 := update_all_loop api mgr r.state rest
      ⟨r.trace ++ r2.trace, r2.state, r2.out⟩

/-- `VehicleManager.update_all_vehicles_with_cached_state`. -/
def update_all_vehicles_with_cached_state (api : ApiImpl) (mgr : VehicleManager)
    (s : MState) : Res Unit :=
  update_all_loop api mgr s s.vehicles

/-- `VehicleManager.force_refresh_vehicle_state`: a bare delegation to the
backend, no geocode step. -/
def force_refresh_vehicle_state (api : ApiImpl) (s : MState) (vehicle : Vehicle) :
    Res Unit :=
  ⟨[.force_refresh_vehicle_state vehicle], s, api.force_refresh_result vehicle⟩

/-- The loop of `force_refresh_all_vehicles_states`. -/
def force_refresh_loop (api : ApiImpl) : MState → List Vehicle → Res Unit
  | s, [] => ⟨[], s, .ok ()⟩
  | s, vehicle :: rest =>
    let r := force_refresh_vehicle_state api s vehicle
    match r.out with
    | .error e => ⟨r.trace, r.state, .error e⟩
    | .ok _ =>
      let r2 := force_refresh_loop api r.state rest
      ⟨r.trace ++ r2.trace, r2.state, r2.out⟩

/-- `VehicleManager.force_refresh_all_vehicles_states`. -/
def force_refresh_all_vehicles_states (api : ApiImpl) (s : MState) : Res Unit :=
  force_refresh_loop api s s.vehicles

/-- The loop of `check_and_force_update_vehicles`: per vehicle, force
refresh when `(started_at_utc - vehicle.last_updated_at).total_seconds() >
force_refresh_interval`, otherwise the cached update. `now` is the
`started_at_utc` computed once before the loop. -/
def check_and_force_loop (api : ApiImpl) (mgr : VehicleManager) (now T : Int) :
    MState → List Vehicle → Res Unit
  | s, [] => ⟨[], s, .ok ()⟩
  | s, vehicle :: rest =>
    let r :=
      if now - vehicle.last_updated_at > T then
        force_refresh_vehicle_state api s vehicle
      else
        update_vehicle_with_cached_state api mgr s vehicle
    match r.out with
    | .error e => ⟨r.trace, r.state, .error e⟩
    | .ok _ =>
      let r2 := check_and_force_loop api mgr now T r.state rest
      ⟨r.trace ++ r2.trace, r2.state, r2.out⟩

/-- `VehicleManager.check_and_force_update_vehicles`. -/
def check_and_force_update_vehicles (api : ApiImpl) (mgr : VehicleManager)
    (now : Int) (s : MState) (force_refresh_interval : Int) : Res Unit :=
  check_and_force_loop api mgr now force_refresh_interval s s.vehicles

/-! ## Initialization and token lifecycle -/

/-- `VehicleManager.initialize` (named `initializeVM` here): login with
(username, password, pin), fetch the vehicle list, append every returned
vehicle to the registry, then the cached-update pass over the whole
registry. -/
def initializeVM (api : ApiImpl) (mgr : VehicleManager) (s : MState) : Res Unit :=
  match api.login_result mgr.username mgr.password (some mgr.pin) with
  | .error e => ⟨[.login mgr.username mgr.password (some mgr.pin)], s, .error e⟩
  | .ok tok =>
    let s1 : MState := { s with token := some tok }
    match api.get_vehicles_result with
    | .error e =>
      ⟨[.login mgr.username mgr.password (some mgr.pin), .get_vehicles], s1, .error e⟩
    | .ok fetched =>
      let s2 : MState := { s1 with vehicles := s1.vehicles ++ fetched }
      let r := update_all_loop api mgr s2 s2.vehicles
      ⟨[.login mgr.username mgr.password (some mgr.pin), .get_vehicles] ++ r.trace,
        r.state, r.out⟩

/-- `VehicleManager.check_and_refresh_token`. The source's first `if` calls
`initialize` when `self.api.token is None` and then falls through to the
second `if`, which reads the (possibly fresh) token's `valid_until`;
reading `valid_until` of a still-absent token raises `AttributeError` as in
Python. The expired branch re-logs in without the PIN, bulk-refreshes the
registry and returns `True`; otherwise the function returns `False`. -/
def check_and_refresh_token (api : ApiImpl) (mgr : VehicleManager) (now : Int)
    (s : MState) : Res Bool :=
  let r1 : Res Unit :=
    if s.token = none then initializeVM api mgr s else ⟨[], s, .ok ()⟩
  match r1.out with
  | .error e => ⟨r1.trace, r1.state, .error e⟩
  | .ok _ =>
    match r1.state.token with
    | none =>
      ⟨r1.trace, r1.state,
        .error (.AttributeError "NoneType object has no attribute valid_until")⟩
    | some tok =>
      if tok.valid_until ≤ now then
        match api.login_result mgr.username mgr.password none with
        | .error e =>
          ⟨r1.trace ++ [.login mgr.username mgr.password none], r1.state, .error e⟩
        | .ok tok2 =>
          let s2 : MState := { r1.state with token := some tok2 }
          match api.refresh_vehicles_result s2.vehicles with
          | .error e =>
            ⟨r1.trace ++ [.login mgr.username mgr.password none,
              .refresh_vehicles s2.vehicles], s2, .error e⟩
          | .ok _ =>
            ⟨r1.trace ++ [.login mgr.username mgr.password none,
              .refresh_vehicles s2.vehicles], s2, .ok true⟩
      else ⟨r1.trace, r1.state, .ok false⟩

/-! ## Command dispatch -/

/-- `VehicleManager.start_climate`. -/
def start_climate (api : ApiImpl) (s : MState) (vehicle_id : String)
    (options : ClimateRequestOptions) : Res String :=
  match get_vehicle s vehicle_id with
  | .error e => ⟨[], s, .error e⟩
  | .ok v => ⟨[.start_climate v options], s, api.start_climate_result v options⟩

/-- `VehicleManager.stop_climate`. -/
def stop_climate (api : ApiImpl) (s : MState) (vehicle_id : String) : Res String :=
  match get_vehicle s vehicle_id with
  | .error e => ⟨[], s, .error e⟩
  | .ok v => ⟨[.stop_climate v], s, api.stop_climate_result v⟩

/-- `VehicleManager.lock`: delegates to `api.lock_action` with
`VEHICLE_LOCK_ACTION.LOCK`. -/
def lock (api : ApiImpl) (s : MState) (vehicle_id : String) : Res String :=
  match get_vehicle s vehicle_id with
  | .error e => ⟨[], s, .error e⟩
  | .ok v =>
    ⟨[.lock_action v (.inl .LOCK)], s, api.lock_action_result v (.inl .LOCK)⟩

/-- `VehicleManager.unlock`: delegates to `api.lock_action` with
`VEHICLE_LOCK_ACTION.UNLOCK`. -/
def unlock (api : ApiImpl) (s : MState) (vehicle_id : String) : Res String :=
  match get_vehicle s vehicle_id with
  | .error e => ⟨[], s, .error e⟩
  | .ok v =>
    ⟨[.lock_action v (.inl .UNLOCK)], s, api.lock_action_result v (.inl .UNLOCK)⟩

/-- `VehicleManager.start_charge`. -/
def start_charge (api : ApiImpl) (s : MState) (vehicle_id : String) : Res String :=
  match get_vehicle s vehicle_id with
  | .error e => ⟨[], s, .error e⟩
  | .ok v => ⟨[.start_charge v], s, api.start_charge_result v⟩

/-- `VehicleManager.stop_charge`. -/
def stop_charge (api : ApiImpl) (s : MState) (vehicle_id : String) : Res String :=
  match get_vehicle s vehicle_id with
  | .error e => ⟨[], s, .error e⟩
  | .ok v => ⟨[.stop_charge v], s, api.stop_charge_result v⟩

/-- `VehicleManager.set_charge_limits`. -/
def set_charge_limits (api : ApiImpl) (s : MState) (vehicle_id : String)
    (ac dc : Int) : Res String :=
  match get_vehicle s vehicle_id with
  | .error e => ⟨[], s, .error e⟩
  | .ok v => ⟨[.set_charge_limits v ac dc], s, api.set_charge_limits_result v ac dc⟩

/-- `VehicleManager.check_action_status`. -/
def check_action_status (api : ApiImpl) (s : MState) (vehicle_id : String)
    (action_id : String) : Res String :=
  match get_vehicle s vehicle_id with
  | .error e => ⟨[], s, .error e⟩
  | .ok v => ⟨[.check_action_status v action_id], s,
      api.check_action_status_result v action_id⟩

/-- `VehicleManager.open_charge_port`: delegates to `api.lock_action` with
`CHARGE_PORT_ACTION.OPEN`. -/
def open_charge_port (api : ApiImpl) (s : MState) (vehicle_id : String) : Res String :=
  match get_vehicle s vehicle_id with
  | .error e => ⟨[], s, .error e⟩
  | .ok v =>
    ⟨[.lock_action v (.inr .OPEN)], s, api.lock_action_result v (.inr .OPEN)⟩

/-- `VehicleManager.close_charge_port`: delegates to `api.lock_action` with
`CHARGE_PORT_ACTION.CLOSE`. -/
def close_charge_port (api : ApiImpl) (s : MState) (vehicle_id : String) : Res String :=
  match get_vehicle s vehicle_id with
  | .error e => ⟨[], s, .error e⟩
  | .ok v =>
    ⟨[.lock_action v (.inr .CLOSE)], s, api.lock_action_result v (.inr .CLOSE)⟩

/-! ## Trace vocabulary used by the statements -/

/-- The calls one cached update of `v` issues when it succeeds. -/
def cachedCallTrace (mgr : VehicleManager) (v : Vehicle) : List ApiCall :=
  .update_vehicle_with_cached_state v ::
    (if mgr.geocode_api_enable = true then
      [.update_geocoded_location v mgr.geocode_api_use_email] else [])

/-- The calls one iteration of `check_and_force_update_vehicles` issues for
`v` when it succeeds. -/
def stepCallTrace (mgr : VehicleManager) (now T : Int) (v : Vehicle) : List ApiCall :=
  if now - v.last_updated_at > T then [.force_refresh_vehicle_state v]
  else cachedCallTrace mgr v

/-- Whether a call is a cached-state update of the vehicle with id `vid`. -/
def isCachedCallFor (vid : String) : ApiCall → Bool
  | .update_vehicle_with_cached_state v => v.id == vid
  | _ => false

/-- Whether a call is a forced refresh of the vehicle with id `vid`. -/
def isForceCallFor (vid : String) : ApiCall → Bool
  | .force_refresh_vehicle_state v => v.id == vid
  | _ => false

/-- Whether a call is a geocode enrichment (of any vehicle). -/
def isGeocodeCall : ApiCall → Bool
  | .update_geocoded_location _ _ => true
  | _ => false

/-! ## Theorems -/

/-- C1. The dispatch table holds for every supported (region, brand) pair:
Canada (code 2) with either brand gives the Canada client, Europe (code 1)
with either brand gives the Europe client, USA (code 3) with Hyundai
(code 2) gives the Hyundai USA client and with Kia (code 1) the Kia USA
client. For pairs outside the tables, however, the source does not raise an
"unsupported region/brand" error: an unknown region code (4) or an unknown
brand code under USA (5) raises a bare `KeyError` from the dict lookup, and
the if/elif chain has no else, so no `UnsupportedRegionBrandError` exists
anywhere in the code. -/
theorem get_implementation_table_eval :
    get_implementation_by_region_brand 2 1 = .ok (some (.KiaUvoApiCA 2 1)) ∧
    get_implementation_by_region_brand 2 2 = .ok (some (.KiaUvoApiCA 2 2)) ∧
    get_implementation_by_region_brand 1 1 = .ok (some (.KiaUvoApiEU 1 1)) ∧
    get_implementation_by_region_brand 1 2 = .ok (some (.KiaUvoApiEU 1 2)) ∧
    get_implementation_by_region_brand 3 2 = .ok (some (.HyundaiBlueLinkAPIUSA 3 2)) ∧
    get_implementation_by_region_brand 3 1 = .ok (some (.KiaUvoAPIUSA 3 1)) ∧
    get_implementation_by_region_brand 4 1 = .error (.KeyError 4) ∧
    get_implementation_by_region_brand 3 5 = .error (.KeyError 5) := by
  refine ⟨rfl, rfl, rfl, rfl, rfl, rfl, ?_, ?_⟩ <;> decide

/-- C5. `get_vehicle` is the linear scan of the registry: it returns the
first vehicle whose identifier equals `vehicle_id` when one is present
(`List.find?` of the registry), and fails with `VehicleNotFoundError` when
no vehicle matches — for any registry state, the empty one included. -/
theorem get_vehicle_first_match (s : MState) (vehicle_id : String) :
    get_vehicle s vehicle_id =
      match s.vehicles.find? (fun v => v.id == vehicle_id) with
      | some v => .ok v
      | none => .error (.VehicleNotFoundError "No vehicle found with this ID") := by
  show get_vehicle_loop vehicle_id s.vehicles = _
  induction s.vehicles with
  | nil => rfl
  | cons v rest ih =>
    by_cases h : v.id = vehicle_id
    · simp [get_vehicle_loop, List.find?, h]
    · simp only [get_vehicle_loop, if_neg h, List.find?]
      rw [show (v.id == vehicle_id) = false by simpa using h]
      exact ih

/-! ## Helper lemmas about the refresh loops -/

/-- A cached update whose backend calls succeed: its full outcome. -/
theorem update_one_ok (api : ApiImpl) (mgr : VehicleManager) (s : MState) (v : Vehicle)
    (h1 : api.update_cached_result v = .ok ())
    (h2 : api.update_geocoded_result v mgr.geocode_api_use_email = .ok ()) :
    update_vehicle_with_cached_state api mgr s v = ⟨cachedCallTrace mgr v, s, .ok ()⟩ := by
  simp only [update_vehicle_with_cached_state, h1, cachedCallTrace]
  by_cases hg : mgr.geocode_api_enable = true <;> simp [hg, h2]

/-- The cached-update bulk loop under a succeeding backend. -/
theorem update_all_loop_ok (api : ApiImpl) (mgr : VehicleManager)
    (vs : List Vehicle) (s : MState)
    (h : ∀ v ∈ vs, api.update_cached_result v = .ok () ∧
        api.update_geocoded_result v mgr.geocode_api_use_email = .ok ()) :
    update_all_loop api mgr s vs = ⟨vs.flatMap (cachedCallTrace mgr), s, .ok ()⟩ := by
  induction vs generalizing s with
  | nil => simp [update_all_loop]
  | cons v rest ih =>
    have hv := h v (List.mem_cons_self v rest)
    rw [update_all_loop, update_one_ok api mgr s v hv.1 hv.2]
    simp only []
    rw [ih s (fun w hw => h w (List.mem_cons_of_mem v hw))]
    simp [List.flatMap_cons]

/-- The cached-update bulk loop when the backend succeeds on a prefix `vs`
and then fails on `v`: the loop stops at `v`'s failing call, issuing
nothing for the vehicles `ws` after it. -/
theorem update_all_loop_fail (api : ApiImpl) (mgr : VehicleManager)
    (vs ws : List Vehicle) (v : Vehicle) (s : MState) (e : PyError)
    (h : ∀ w ∈ vs, api.update_cached_result w = .ok () ∧
        api.update_geocoded_result w mgr.geocode_api_use_email = .ok ())
    (hv : api.update_cached_result v = .error e) :
    update_all_loop api mgr s (vs ++ v :: ws) =
      ⟨vs.flatMap (cachedCallTrace mgr) ++ [.update_vehicle_with_cached_state v],
        s, .error e⟩ := by
  induction vs generalizing s with
  | nil =>
    simp only [List.nil_append, List.flatMap_nil, update_all_loop,
      update_vehicle_with_cached_state, hv]
  | cons w rest ih =>
    have hw := h w (List.mem_cons_self w rest)
    rw [List.cons_append, update_all_loop, update_one_ok api mgr s w hw.1 hw.2]
    simp only []
    rw [ih s (fun u hu => h u (List.mem_cons_of_mem w hu))]
    simp [List.flatMap_cons]

/-- The force-refresh bulk loop under a succeeding backend. -/
theorem force_loop_ok (api : ApiImpl) (vs : List Vehicle) (s : MState)
    (h : ∀ v ∈ vs, api.force_refresh_result v = .ok ()) :
    force_refresh_loop api s vs =
      ⟨vs.map (ApiCall.force_refresh_vehicle_state ·), s, .ok ()⟩ := by
  induction vs generalizing s with
  | nil => simp [force_refresh_loop]
  | cons v rest ih =>
    rw [force_refresh_loop]
    simp only [force_refresh_vehicle_state, h v (List.mem_cons_self v rest)]
    rw [ih s (fun w hw => h w (List.mem_cons_of_mem v hw))]
    simp

/-- The force-refresh bulk loop when the backend succeeds on a prefix `vs`
and then fails on `v`. -/
theorem force_loop_fail (api : ApiImpl) (vs ws : List Vehicle) (v : Vehicle)
    (s : MState) (e : PyError)
    (h : ∀ w ∈ vs, api.force_refresh_result w = .ok ())
    (hv : api.force_refresh_result v = .error e) :
    force_refresh_loop api s (vs ++ v :: ws) =
      ⟨vs.map (ApiCall.force_refresh_vehicle_state ·) ++
        [.force_refresh_vehicle_state v], s, .error e⟩ := by
  induction vs generalizing s with
  | nil =>
    rw [List.nil_append, force_refresh_loop]
    simp [force_refresh_vehicle_state, hv]
  | cons w rest ih =>
    rw [List.cons_append, force_refresh_loop]
    simp only [force_refresh_vehicle_state, h w (List.mem_cons_self w rest)]
    rw [ih s (fun u hu => h u (List.mem_cons_of_mem w hu))]
    simp

/-- The mixed loop of `check_and_force_update_vehicles` under a succeeding
backend: each vehicle contributes its `stepCallTrace` block. -/
theorem check_loop_ok (api : ApiImpl) (mgr : VehicleManager) (now T : Int)
    (vs : List Vehicle) (s : MState)
    (h : ∀ v ∈ vs, api.update_cached_result v = .ok () ∧
        api.update_geocoded_result v mgr.geocode_api_use_email = .ok () ∧
        api.force_refresh_result v = .ok ()) :
    check_and_force_loop api mgr now T s vs =
      ⟨vs.flatMap (stepCallTrace mgr now T), s, .ok ()⟩ := by
  induction vs generalizing s with
  | nil => simp [check_and_force_loop]
  | cons v rest ih =>
    have hv := h v (List.mem_cons_self v rest)
    rw [check_and_force_loop]
    by_cases hs : now - v.last_updated_at > T
    · simp only [if_pos hs, force_refresh_vehicle_state, hv.2.2]
      rw [ih s (fun w hw => h w (List.mem_cons_of_mem v hw))]
      simp [List.flatMap_cons, stepCallTrace, if_pos hs]
    · simp only [if_neg hs]
      rw [update_one_ok api mgr s v hv.1 hv.2.1]
      simp only []
      rw [ih s (fun w hw => h w (List.mem_cons_of_mem v hw))]
      simp [List.flatMap_cons, stepCallTrace, if_neg hs]

/-- The mixed loop when the backend succeeds on a prefix `vs` and fails on
`v` in whichever branch `v` takes. -/
theorem check_loop_fail (api : ApiImpl) (mgr : VehicleManager) (now T : Int)
    (vs ws : List Vehicle) (v : Vehicle) (s : MState) (e : PyError)
    (h : ∀ w ∈ vs, api.update_cached_result w = .ok () ∧
        api.update_geocoded_result w mgr.geocode_api_use_email = .ok () ∧
        api.force_refresh_result w = .ok ())
    (hvC : api.update_cached_result v = .error e)
    (hvF : api.force_refresh_result v = .error e) :
    check_and_force_loop api mgr now T s (vs ++ v :: ws) =
      ⟨vs.flatMap (stepCallTrace mgr now T) ++
        [if now - v.last_updated_at > T then .force_refresh_vehicle_state v
         else .update_vehicle_with_cached_state v], s, .error e⟩ := by
  induction vs generalizing s with
  | nil =>
    rw [List.nil_append, check_and_force_loop]
    by_cases hs : now - v.last_updated_at > T
    · simp [if_pos hs, force_refresh_vehicle_state, hvF]
    · simp [if_neg hs, update_vehicle_with_cached_state, hvC]
  | cons w rest ih =>
    have hw := h w (List.mem_cons_self w rest)
    rw [List.cons_append, check_and_force_loop]
    by_cases hs : now - w.last_updated_at > T
    · simp only [if_pos hs, force_refresh_vehicle_state, hw.2.2]
      rw [ih s (fun u hu => h u (List.mem_cons_of_mem w hu))]
      simp [List.flatMap_cons, stepCallTrace, if_pos hs]
    · simp only [if_neg hs]
      rw [update_one_ok api mgr s w hw.1 hw.2.1]
      simp only []
      rw [ih s (fun u hu => h u (List.mem_cons_of_mem w hu))]
      simp [List.flatMap_cons, stepCallTrace, if_neg hs]

/-- `initializeVM` under a succeeding backend: its full outcome. -/
theorem initializeVM_run (api : ApiImpl) (mgr : VehicleManager) (s : MState)
    (tok : Token) (fetched : List Vehicle)
    (hlogin : api.login_result mgr.username mgr.password (some mgr.pin) = .ok tok)
    (hvl : api.get_vehicles_result = .ok fetched)
    (h : ∀ v, api.update_cached_result v = .ok () ∧
        api.update_geocoded_result v mgr.geocode_api_use_email = .ok ()) :
    initializeVM api mgr s =
      ⟨[.login mgr.username mgr.password (some mgr.pin), .get_vehicles] ++
        (s.vehicles ++ fetched).flatMap (cachedCallTrace mgr),
       ⟨some tok, s.vehicles ++ fetched⟩, .ok ()⟩ := by
  simp only [initializeVM, hlogin, hvl]
  rw [update_all_loop_ok api mgr (s.vehicles ++ fetched) _ (fun v _ => h v)]

/-- C6. After a successful `initialize()` (embedded as `initializeVM`): the
fetched vehicles are appended to the registry, so from an empty registry
the registry length equals the count the backend returned (re-initializing
from a non-empty registry duplicates prior entries: the registry becomes
`old ++ fetched`), and the trace shows every vehicle of the registry then
undergoing exactly one cached-state update, each followed by a geocode
enrichment if and only if the geocode flag is enabled
(`cachedCallTrace`). -/
theorem initializeVM_spec (api : ApiImpl) (mgr : VehicleManager) (s : MState)
    (tok : Token) (fetched : List Vehicle)
    (hlogin : api.login_result mgr.username mgr.password (some mgr.pin) = .ok tok)
    (hvl : api.get_vehicles_result = .ok fetched)
    (h : ∀ v, api.update_cached_result v = .ok () ∧
        api.update_geocoded_result v mgr.geocode_api_use_email = .ok ()) :
    (initializeVM api mgr s).out = .ok () ∧
    (initializeVM api mgr s).state.vehicles = s.vehicles ++ fetched ∧
    (s.vehicles = [] → (initializeVM api mgr s).state.vehicles.length = fetched.length) ∧
    (initializeVM api mgr s).trace =
      [.login mgr.username mgr.password (some mgr.pin), .get_vehicles] ++
        (s.vehicles ++ fetched).flatMap (cachedCallTrace mgr) := by
  rw [initializeVM_run api mgr s tok fetched hlogin hvl h]
  refine ⟨rfl, rfl, ?_, rfl⟩
  intro he
  simp [he]

/-- C9. In every bulk refresh operation — `update_all_vehicles_with_cached_state`,
`force_refresh_all_vehicles_states` and `check_and_force_update_vehicles` —
a backend error on vehicle `v` propagates immediately: the operation's
outcome is that error, its trace holds the completed refreshes of every
vehicle before `v` in registry order followed by `v`'s failing call, and no
call is issued for any vehicle after `v`. -/
theorem bulk_failure_propagates (api : ApiImpl) (mgr : VehicleManager)
    (now T : Int) (stok : Option Token) (vs ws : List Vehicle) (v : Vehicle)
    (e : PyError)
    (h : ∀ w ∈ vs, api.update_cached_result w = .ok () ∧
        api.update_geocoded_result w mgr.geocode_api_use_email = .ok () ∧
        api.force_refresh_result w = .ok ())
    (hvC : api.update_cached_result v = .error e)
    (hvF : api.force_refresh_result v = .error e) :
    (update_all_vehicles_with_cached_state api mgr ⟨stok, vs ++ v :: ws⟩).out = .error e ∧
    (update_all_vehicles_with_cached_state api mgr ⟨stok, vs ++ v :: ws⟩).trace =
      vs.flatMap (cachedCallTrace mgr) ++ [.update_vehicle_with_cached_state v] ∧
    (force_refresh_all_vehicles_states api ⟨stok, vs ++ v :: ws⟩).out = .error e ∧
    (force_refresh_all_vehicles_states api ⟨stok, vs ++ v :: ws⟩).trace =
      vs.map (ApiCall.force_refresh_vehicle_state ·) ++ [.force_refresh_vehicle_state v] ∧
    (check_and_force_update_vehicles api mgr now ⟨stok, vs ++ v :: ws⟩ T).out = .error e ∧
    (check_and_force_update_vehicles api mgr now ⟨stok, vs ++ v :: ws⟩ T).trace =
      vs.flatMap (stepCallTrace mgr now T) ++
        [if now - v.last_updated_at > T then .force_refresh_vehicle_state v
         else .update_vehicle_with_cached_state v] := by
  have h1 := update_all_loop_fail api mgr vs ws v ⟨stok, vs ++ v :: ws⟩ e
    (fun w hw => ⟨(h w hw).1, (h w hw).2.1⟩) hvC
  have h2 := force_loop_fail api vs ws v ⟨stok, vs ++ v :: ws⟩ e
    (fun w hw => (h w hw).2.2) hvF
  have h3 := check_loop_fail api mgr now T vs ws v ⟨stok, vs ++ v :: ws⟩ e h hvC hvF
  unfold update_all_vehicles_with_cached_state force_refresh_all_vehicles_states
    check_and_force_update_vehicles
  rw [show (⟨stok, vs ++ v :: ws⟩ : MState).vehicles = vs ++ v :: ws from rfl,
    h1, h2, h3]
  exact ⟨rfl, rfl, rfl, rfl, rfl, rfl⟩

/-- C4. `open_charge_port` and `close_charge_port` each resolve the vehicle
through `get_vehicle` and delegate to the single shared backend operation
`api.lock_action`, differing only in the direction argument
(`CHARGE_PORT_ACTION.OPEN` vs `CHARGE_PORT_ACTION.CLOSE`), and return the
backend's handle unchanged. -/
theorem charge_port_shared_action (api : ApiImpl) (s : MState)
    (vehicle_id : String) (v : Vehicle)
    (hfind : get_vehicle s vehicle_id = .ok v) :
    (open_charge_port api s vehicle_id).out = api.lock_action_result v (.inr .OPEN) ∧
    (open_charge_port api s vehicle_id).trace = [.lock_action v (.inr .OPEN)] ∧
    (close_charge_port api s vehicle_id).out = api.lock_action_result v (.inr .CLOSE) ∧
    (close_charge_port api s vehicle_id).trace = [.lock_action v (.inr .CLOSE)] := by
  unfold open_charge_port close_charge_port
  rw [hfind]
  exact ⟨rfl, rfl, rfl, rfl⟩

/-- C8. Command dispatch is a pure pass-through: on an empty registry
`lock "v1"` fails with `VehicleNotFoundError`; once "v1" resolves to a
vehicle `v`, `lock "v1"` delegates to the backend lock action with
direction `LOCK` and returns the backend's handle unchanged, and
`set_charge_limits "v1" ac dc` passes `ac` and `dc` through unchanged and
returns the backend's result verbatim; and no command-dispatch operation
mutates the state (registry or token). -/
theorem command_dispatch_passthrough (api : ApiImpl) (s0 s : MState)
    (v : Vehicle) (ac dc : Int)
    (h0 : s0.vehicles = [])
    (hfind : get_vehicle s "v1" = .ok v) :
    (lock api s0 "v1").out =
      .error (.VehicleNotFoundError "No vehicle found with this ID") ∧
    (lock api s "v1").out = api.lock_action_result v (.inl .LOCK) ∧
    (lock api s "v1").trace = [.lock_action v (.inl .LOCK)] ∧
    (set_charge_limits api s "v1" ac dc).out = api.set_charge_limits_result v ac dc ∧
    (set_charge_limits api s "v1" ac dc).trace = [.set_charge_limits v ac dc] ∧
    (∀ (s' : MState) (vehicle_id action_id : String)
        (options : ClimateRequestOptions) (ac' dc' : Int),
      (start_climate api s' vehicle_id options).state = s' ∧
      (stop_climate api s' vehicle_id).state = s' ∧
      (lock api s' vehicle_id).state = s' ∧
      (unlock api s' vehicle_id).state = s' ∧
      (start_charge api s' vehicle_id).state = s' ∧
      (stop_charge api s' vehicle_id).state = s' ∧
      (set_charge_limits api s' vehicle_id ac' dc').state = s' ∧
      (check_action_status api s' vehicle_id action_id).state = s' ∧
      (open_charge_port api s' vehicle_id).state = s' ∧
      (close_charge_port api s' vehicle_id).state = s') := by
  refine ⟨?_, ?_, ?_, ?_, ?_, ?_⟩
  · unfold lock get_vehicle
    rw [h0]
    rfl
  · unfold lock; rw [hfind]
  · unfold lock; rw [hfind]
  · unfold set_charge_limits; rw [hfind]
  · unfold set_charge_limits; rw [hfind]
  · intro s' vehicle_id action_id options ac' dc'
    refine ⟨?_, ?_, ?_, ?_, ?_, ?_, ?_, ?_, ?_, ?_⟩ <;>
      first
        | (unfold start_climate; cases get_vehicle s' vehicle_id <;> rfl)
        | (unfold stop_climate; cases get_vehicle s' vehicle_id <;> rfl)
        | (unfold lock; cases get_vehicle s' vehicle_id <;> rfl)
        | (unfold unlock; cases get_vehicle s' vehicle_id <;> rfl)
        | (unfold start_charge; cases get_vehicle s' vehicle_id <;> rfl)
        | (unfold stop_charge; cases get_vehicle s' vehicle_id <;> rfl)
        | (unfold set_charge_limits; cases get_vehicle s' vehicle_id <;> rfl)
        | (unfold check_action_status; cases get_vehicle s' vehicle_id <;> rfl)
        | (unfold open_charge_port; cases get_vehicle s' vehicle_id <;> rfl)
        | (unfold close_charge_port; cases get_vehicle s' vehicle_id <;> rfl)

/-- C7. The first login performed by `initialize` (embedded as
`initializeVM`) always passes `(username, password, pin)` — it is the very
first backend call of any run — while the re-login that
`check_and_refresh_token` performs on an expired token passes only
`(username, password)` with no PIN. -/
theorem login_pin_asymmetry (api : ApiImpl) (mgr : VehicleManager) (now : Int)
    (s : MState) (tok : Token)
    (htok : s.token = some tok) (hexp : tok.valid_until ≤ now) :
    (∀ (api' : ApiImpl) (mgr' : VehicleManager) (s' : MState),
      (initializeVM api' mgr' s').trace.head? =
        some (.login mgr'.username mgr'.password (some mgr'.pin))) ∧
    (check_and_refresh_token api mgr now s).trace.head? =
      some (.login mgr.username mgr.password none) := by
  constructor
  · intro api' mgr' s'
    unfold initializeVM
    cases api'.login_result mgr'.username mgr'.password (some mgr'.pin) with
    | error e => rfl
    | ok tok' =>
      cases api'.get_vehicles_result with
      | error e => rfl
      | ok fetched => rfl
  · unfold check_and_refresh_token
    rw [if_neg (by simp [htok])]
    simp only [htok]
    rw [if_pos hexp]
    cases api.login_result mgr.username mgr.password none with
    | error e => rfl
    | ok tok2 =>
      cases api.refresh_vehicles_result s.vehicles with
      | error e => rfl
      | ok u => rfl

/-- Under `check_and_force_loop`, when every vehicle of the list is stale
(elapsed strictly above the threshold), no geocode call is ever issued,
whatever the backend answers. -/
theorem check_loop_stale_nogeo (api : ApiImpl) (mgr : VehicleManager)
    (now T : Int) (vs : List Vehicle) (s : MState)
    (h : ∀ v ∈ vs, now - v.last_updated_at > T) :
    (check_and_force_loop api mgr now T s vs).trace.countP isGeocodeCall = 0 := by
  induction vs generalizing s with
  | nil => rfl
  | cons v rest ih =>
    rw [check_and_force_loop]
    rw [if_pos (h v (List.mem_cons_self v rest))]
    cases hres : api.force_refresh_result v with
    | error e => simp [force_refresh_vehicle_state, hres, isGeocodeCall]
    | ok u =>
      simp only [force_refresh_vehicle_state, hres, List.countP_append]
      rw [ih s (fun w hw => h w (List.mem_cons_of_mem v hw))]
      simp [isGeocodeCall]

/-- C10. A forced refresh never performs geocode enrichment, even when the
geocode flag is enabled: `force_refresh_vehicle_state` issues no geocode
call for any state and vehicle, and a run of
`check_and_force_update_vehicles` in which every vehicle takes the force
branch (all elapsed times strictly above the threshold) issues no geocode
call either — the geocode step belongs exclusively to the cached-update
path. -/
theorem force_refresh_no_geocode (api : ApiImpl) (mgr : VehicleManager)
    (now T : Int) (s : MState)
    (hstale : ∀ v ∈ s.vehicles, now - v.last_updated_at > T) :
    (∀ (s' : MState) (v : Vehicle),
      (force_refresh_vehicle_state api s' v).trace.countP isGeocodeCall = 0) ∧
    (check_and_force_update_vehicles api mgr now s T).trace.countP isGeocodeCall = 0 := by
  constructor
  · intro s' v
    rfl
  · exact check_loop_stale_nogeo api mgr now T s.vehicles s hstale

/-- Force-refresh calls for `vid` inside one per-vehicle block of the
mixed loop's trace. -/
theorem countP_step_force (mgr : VehicleManager) (now T : Int) (w : Vehicle)
    (vid : String) :
    (stepCallTrace mgr now T w).countP (isForceCallFor vid) =
      if now - w.last_updated_at > T ∧ w.id = vid then 1 else 0 := by
  unfold stepCallTrace cachedCallTrace
  by_cases hs : now - w.last_updated_at > T
  · rw [if_pos hs]
    by_cases hid : w.id = vid
    · rw [if_pos ⟨hs, hid⟩]
      simp [List.countP_cons, isForceCallFor, hid]
    · rw [if_neg (fun hc => hid hc.2)]
      simp [List.countP_cons, isForceCallFor, hid]
  · rw [if_neg hs,
      if_neg (show ¬(now - w.last_updated_at > T ∧ w.id = vid) from fun hc => hs hc.1)]
    by_cases hg : mgr.geocode_api_enable = true <;>
      simp [hg, List.countP_cons, isForceCallFor]

/-- Cached-update calls for `vid` inside one per-vehicle block of the
mixed loop's trace. -/
theorem countP_step_cached (mgr : VehicleManager) (now T : Int) (w : Vehicle)
    (vid : String) :
    (stepCallTrace mgr now T w).countP (isCachedCallFor vid) =
      if ¬ now - w.last_updated_at > T ∧ w.id = vid then 1 else 0 := by
  unfold stepCallTrace cachedCallTrace
  by_cases hs : now - w.last_updated_at > T
  · rw [if_pos hs,
      if_neg (show ¬(¬ now - w.last_updated_at > T ∧ w.id = vid) from fun hc => hc.1 hs)]
    simp [List.countP_cons, isCachedCallFor]
  · rw [if_neg hs]
    by_cases hid : w.id = vid
    · rw [if_pos (show (¬ now - w.last_updated_at > T ∧ w.id = vid) from ⟨hs, hid⟩)]
      by_cases hg : mgr.geocode_api_enable = true <;>
        simp [hg, List.countP_cons, isCachedCallFor, isGeocodeCall, hid]
    · rw [if_neg
        (show ¬(¬ now - w.last_updated_at > T ∧ w.id = vid) from fun hc => hid hc.2)]
      by_cases hg : mgr.geocode_api_enable = true <;>
        simp [hg, List.countP_cons, isCachedCallFor, hid]

/-- Vehicles whose id differs from `vid` contribute no force-refresh and no
cached-update call for `vid` to the mixed loop's trace. -/
theorem countP_flatMap_step_zero (mgr : VehicleManager) (now T : Int)
    (vs : List Vehicle) (vid : String)
    (hid : vid ∉ vs.map Vehicle.id) :
    (vs.flatMap (stepCallTrace mgr now T)).countP (isForceCallFor vid) = 0 ∧
    (vs.flatMap (stepCallTrace mgr now T)).countP (isCachedCallFor vid) = 0 := by
  induction vs with
  | nil => exact ⟨rfl, rfl⟩
  | cons w rest ih =>
    rw [List.map_cons] at hid
    have hw : w.id ≠ vid := fun h => hid (List.mem_cons.mpr (Or.inl h.symm))
    have hrest : vid ∉ rest.map Vehicle.id := fun h => hid (List.mem_cons_of_mem _ h)
    have := ih hrest
    rw [List.flatMap_cons]
    constructor
    · rw [List.countP_append, countP_step_force,
        if_neg (show ¬(now - w.last_updated_at > T ∧ w.id = vid) from fun hc => hw hc.2),
        this.1]
    · rw [List.countP_append, countP_step_cached,
        if_neg (show ¬(¬ now - w.last_updated_at > T ∧ w.id = vid) from fun hc => hw hc.2),
        this.2]

/-- Per-vehicle call counts in the mixed loop's successful trace: a stale
vehicle gets exactly one force refresh and no cached update, any other
exactly one cached update and no force refresh. -/
theorem step_counts (mgr : VehicleManager) (now T : Int) (vs : List Vehicle)
    (v : Vehicle)
    (hnodup : (vs.map Vehicle.id).Nodup) (hv : v ∈ vs) :
    if now - v.last_updated_at > T then
      (vs.flatMap (stepCallTrace mgr now T)).countP (isForceCallFor v.id) = 1 ∧
      (vs.flatMap (stepCallTrace mgr now T)).countP (isCachedCallFor v.id) = 0
    else
      (vs.flatMap (stepCallTrace mgr now T)).countP (isCachedCallFor v.id) = 1 ∧
      (vs.flatMap (stepCallTrace mgr now T)).countP (isForceCallFor v.id) = 0 := by
  induction vs with
  | nil => cases hv
  | cons w rest ih =>
    rw [List.map_cons, List.nodup_cons] at hnodup
    rw [List.flatMap_cons]
    rcases List.mem_cons.mp hv with rfl | hvr
    · have hzero := countP_flatMap_step_zero mgr now T rest v.id hnodup.1
      by_cases hs : now - v.last_updated_at > T
      · rw [if_pos hs]
        constructor
        · rw [List.countP_append, countP_step_force,
            if_pos (show (now - v.last_updated_at > T ∧ v.id = v.id) from ⟨hs, rfl⟩),
            hzero.1]
        · rw [List.countP_append, countP_step_cached,
            if_neg (show ¬(¬ now - v.last_updated_at > T ∧ v.id = v.id) from
              fun hc => hc.1 hs),
            hzero.2]
      · rw [if_neg hs]
        constructor
        · rw [List.countP_append, countP_step_cached,
            if_pos (show (¬ now - v.last_updated_at > T ∧ v.id = v.id) from ⟨hs, rfl⟩),
            hzero.2]
        · rw [List.countP_append, countP_step_force,
            if_neg (show ¬(now - v.last_updated_at > T ∧ v.id = v.id) from
              fun hc => hs hc.1),
            hzero.1]
    · have hwv : w.id ≠ v.id := fun h =>
        hnodup.1 (h ▸ List.mem_map_of_mem Vehicle.id hvr)
      have hih := ih hnodup.2 hvr
      by_cases hs : now - v.last_updated_at > T
      · rw [if_pos hs] at hih ⊢
        constructor
        · rw [List.countP_append, countP_step_force,
            if_neg (show ¬(now - w.last_updated_at > T ∧ w.id = v.id) from
              fun hc => hwv hc.2),
            hih.1]
        · rw [List.countP_append, countP_step_cached,
            if_neg (show ¬(¬ now - w.last_updated_at > T ∧ w.id = v.id) from
              fun hc => hwv hc.2),
            hih.2]
      · rw [if_neg hs] at hih ⊢
        constructor
        · rw [List.countP_append, countP_step_cached,
            if_neg (show ¬(¬ now - w.last_updated_at > T ∧ w.id = v.id) from
              fun hc => hwv hc.2),
            hih.1]
        · rw [List.countP_append, countP_step_force,
            if_neg (show ¬(now - w.last_updated_at > T ∧ w.id = v.id) from
              fun hc => hwv hc.2),
            hih.2]

/-- C3. For every vehicle in the registry, `check_and_force_update_vehicles`
makes an independent per-vehicle decision (under a succeeding backend and
a registry with distinct identifiers): when the elapsed time since the
vehicle's last update strictly exceeds the threshold `T`, its trace holds
exactly one force refresh for that vehicle and no cached update; when the
elapsed time is at most `T` — the boundary elapsed = `T` included — it
holds exactly one cached update and no force refresh. -/
theorem check_and_force_update_decision (api : ApiImpl) (mgr : VehicleManager)
    (now T : Int) (s : MState)
    (hok : ∀ w, api.update_cached_result w = .ok () ∧
        api.update_geocoded_result w mgr.geocode_api_use_email = .ok () ∧
        api.force_refresh_result w = .ok ())
    (hnodup : (s.vehicles.map Vehicle.id).Nodup)
    (v : Vehicle) (hv : v ∈ s.vehicles) :
    if now - v.last_updated_at > T then
      (check_and_force_update_vehicles api mgr now s T).trace.countP
        (isForceCallFor v.id) = 1 ∧
      (check_and_force_update_vehicles api mgr now s T).trace.countP
        (isCachedCallFor v.id) = 0
    else
      (check_and_force_update_vehicles api mgr now s T).trace.countP
        (isCachedCallFor v.id) = 1 ∧
      (check_and_force_update_vehicles api mgr now s T).trace.countP
        (isForceCallFor v.id) = 0 := by
  rw [check_and_force_update_vehicles,
    check_loop_ok api mgr now T s.vehicles s (fun w _ => hok w)]
  exact step_counts mgr now T s.vehicles v hnodup hv

/-! ## Concrete fixtures used by counterexample and witness theorems -/

/-- A vehicle used by the concrete runs. -/
def vW : Vehicle := ⟨"v1", 0, 0⟩

/-- A backend oracle whose every call succeeds; a login yields a token
valid until time 100, and the vehicle list holds the single vehicle
`vW`. -/
def apiW : ApiImpl where
  login_result := fun _ _ _ => .ok ⟨100⟩
  get_vehicles_result := .ok [vW]
  update_cached_result := fun _ => .ok ()
  update_geocoded_result := fun _ _ => .ok ()
  force_refresh_result := fun _ => .ok ()
  refresh_vehicles_result := fun _ => .ok ()
  lock_action_result := fun _ _ => .ok "handle"
  start_climate_result := fun _ _ => .ok "handle"
  stop_climate_result := fun _ => .ok "handle"
  start_charge_result := fun _ => .ok "handle"
  stop_charge_result := fun _ => .ok "handle"
  set_charge_limits_result := fun _ _ _ => .ok "handle"
  check_action_status_result := fun _ _ => .ok "handle"

/-- A manager configuration with geocoding enabled. -/
def mgrW : VehicleManager :=
  ⟨3, 1, "user", "pass", "1234", true, false⟩

/-- The state of a freshly constructed manager: no token, empty registry. -/
def sW : MState := ⟨none, []⟩

/-- C2, counterexample to the claim as stated: with no token at all,
`check_and_refresh_token` runs `initialize` but then falls through to the
expiry test on the fresh token; at time 0 with a fresh token valid until
100 it returns `False`, not the claimed `True`. -/
theorem check_and_refresh_token_cex :
    sW.token = none ∧
    (check_and_refresh_token apiW mgrW 0 sW).out = .ok false := by
  exact ⟨rfl, rfl⟩

/-- C2 (amended). `check_and_refresh_token` triggers a full `initialize`
when the backend has no token, but the boolean it then returns is decided
by the post-initialize token: under a succeeding backend the result is
`true` exactly when the token held after the first `if` has expiry ≤ now
(in which case a PIN-less re-login and one bulk `refresh_vehicles` of the
registry follow), and with an existing still-valid token it returns `false`
having issued no backend call and left the state unchanged. -/
theorem check_and_refresh_token_amended (api : ApiImpl) (mgr : VehicleManager)
    (now : Int) (s : MState) (tokA tokB : Token) (fetched : List Vehicle)
    (hloginPin : api.login_result mgr.username mgr.password (some mgr.pin) = .ok tokA)
    (hloginNoPin : api.login_result mgr.username mgr.password none = .ok tokB)
    (hvl : api.get_vehicles_result = .ok fetched)
    (hup : ∀ v, api.update_cached_result v = .ok () ∧
        api.update_geocoded_result v mgr.geocode_api_use_email = .ok ())
    (hrf : ∀ ws, api.refresh_vehicles_result ws = .ok ()) :
    ∃ tok1 : Token,
      (if s.token = none then initializeVM api mgr s
        else ⟨[], s, .ok ()⟩).state.token = some tok1 ∧
      (check_and_refresh_token api mgr now s).out =
        .ok (decide (tok1.valid_until ≤ now)) ∧
      (check_and_refresh_token api mgr now s).trace =
        (if s.token = none then initializeVM api mgr s
          else ⟨[], s, .ok ()⟩).trace ++
          (if tok1.valid_until ≤ now then
            [.login mgr.username mgr.password none,
              .refresh_vehicles
                (if s.token = none then initializeVM api mgr s
                  else ⟨[], s, .ok ()⟩).state.vehicles]
            else []) ∧
      (s.token ≠ none → now < tok1.valid_until →
        check_and_refresh_token api mgr now s = ⟨[], s, .ok false⟩) := by
  cases htok : s.token with
  | none =>
    have hini := initializeVM_run api mgr s tokA fetched hloginPin hvl hup
    by_cases hle : tokA.valid_until ≤ now
    · have hmain : check_and_refresh_token api mgr now s =
          ⟨([.login mgr.username mgr.password (some mgr.pin), .get_vehicles] ++
              (s.vehicles ++ fetched).flatMap (cachedCallTrace mgr)) ++
            [.login mgr.username mgr.password none,
              .refresh_vehicles (s.vehicles ++ fetched)],
            ⟨some tokB, s.vehicles ++ fetched⟩, .ok true⟩ := by
        simp only [check_and_refresh_token, htok, if_pos, hini]
        simp [hle, hloginNoPin, hrf]
      refine ⟨tokA, ?_, ?_, ?_, fun hcontra _ => absurd rfl hcontra⟩
      · simp [htok, hini]
      · simp [hmain, hle]
      · simp [hmain, htok, hini, hle]
    · have hmain : check_and_refresh_token api mgr now s =
          ⟨[.login mgr.username mgr.password (some mgr.pin), .get_vehicles] ++
              (s.vehicles ++ fetched).flatMap (cachedCallTrace mgr),
            ⟨some tokA, s.vehicles ++ fetched⟩, .ok false⟩ := by
        simp only [check_and_refresh_token, htok, if_pos, hini]
        simp [hle]
      refine ⟨tokA, ?_, ?_, ?_, fun hcontra _ => absurd rfl hcontra⟩
      · simp [htok, hini]
      · simp [hmain, hle]
      · simp [hmain, htok, hini, hle]
  | some tok =>
    by_cases hle : tok.valid_until ≤ now
    · have hmain : check_and_refresh_token api mgr now s =
          ⟨[.login mgr.username mgr.password none, .refresh_vehicles s.vehicles],
            ⟨some tokB, s.vehicles⟩, .ok true⟩ := by
        simp only [check_and_refresh_token]
        rw [if_neg (by simp [htok])]
        simp [htok, hle, hloginNoPin, hrf]
      refine ⟨tok, ?_, ?_, ?_, ?_⟩
      · rw [if_neg (by simp [htok])]
        exact htok
      · simp [hmain, hle]
      · rw [if_neg (by simp [htok])]
        simp [hmain, hle]
      · intro _ hlt
        exact absurd hle (not_le.mpr hlt)
    · have hmain : check_and_refresh_token api mgr now s = ⟨[], s, .ok false⟩ := by
        simp only [check_and_refresh_token]
        rw [if_neg (by simp [htok])]
        simp [htok, hle]
      refine ⟨tok, ?_, ?_, ?_, fun _ _ => hmain⟩
      · rw [if_neg (by simp [htok])]
        exact htok
      · simp [hmain, hle]
      · rw [if_neg (by simp [htok])]
        simp [hmain, hle]

/-- A one-vehicle registry state holding `vW`, with no token. -/
def s8 : MState := ⟨none, [vW]⟩

/-- A state whose token expired at time 0, registry holding `vW`. -/
def sExp : MState := ⟨some ⟨0⟩, [vW]⟩

/-- A vehicle last updated at time 2: at time 5 with threshold 3 its
elapsed time sits exactly on the boundary. -/
def v3 : Vehicle := ⟨"car", 2, 0⟩

/-- A state with a valid token and the boundary vehicle `v3`. -/
def s3 : MState := ⟨some ⟨100⟩, [v3]⟩

/-- The vehicle on which `apiF` fails. -/
def vBad : Vehicle := ⟨"bad", 0, 0⟩

/-- A vehicle placed after `vBad` in the registry. -/
def vLater : Vehicle := ⟨"v2", 0, 0⟩

/-- A backend oracle that fails every cached update and forced refresh of
the vehicle with id "bad" (error code 7) and succeeds on everything
else. -/
def apiF : ApiImpl where
  login_result := fun _ _ _ => .ok ⟨100⟩
  get_vehicles_result := .ok [vW]
  update_cached_result := fun w =>
    if w.id = "bad" then .error (.BackendError 7) else .ok ()
  update_geocoded_result := fun _ _ => .ok ()
  force_refresh_result := fun w =>
    if w.id = "bad" then .error (.BackendError 7) else .ok ()
  refresh_vehicles_result := fun _ => .ok ()
  lock_action_result := fun _ _ => .ok "handle"
  start_climate_result := fun _ _ => .ok "handle"
  stop_climate_result := fun _ => .ok "handle"
  start_charge_result := fun _ => .ok "handle"
  stop_charge_result := fun _ => .ok "handle"
  set_charge_limits_result := fun _ _ _ => .ok "handle"
  check_action_status_result := fun _ _ => .ok "handle"

/-! ## Witnesses: the hypothesis-bearing theorems applied at concrete inputs -/

/-- C2's amended theorem at a concrete input: fresh manager, all-succeeding
backend, time 0, fresh token valid until 100. -/
theorem check_and_refresh_token_amended_witness :
    ∃ tok1 : Token,
      (if sW.token = none then initializeVM apiW mgrW sW
        else ⟨[], sW, .ok ()⟩).state.token = some tok1 ∧
      (check_and_refresh_token apiW mgrW 0 sW).out =
        .ok (decide (tok1.valid_until ≤ 0)) ∧
      (check_and_refresh_token apiW mgrW 0 sW).trace =
        (if sW.token = none then initializeVM apiW mgrW sW
          else ⟨[], sW, .ok ()⟩).trace ++
          (if tok1.valid_until ≤ 0 then
            [.login mgrW.username mgrW.password none,
              .refresh_vehicles
                (if sW.token = none then initializeVM apiW mgrW sW
                  else ⟨[], sW, .ok ()⟩).state.vehicles]
            else []) ∧
      (sW.token ≠ none → 0 < tok1.valid_until →
        check_and_refresh_token apiW mgrW 0 sW = ⟨[], sW, .ok false⟩) :=
  check_and_refresh_token_amended apiW mgrW 0 sW ⟨100⟩ ⟨100⟩ [vW] rfl rfl rfl
    (fun _ => ⟨rfl, rfl⟩) (fun _ => rfl)

/-- C3's theorem at a concrete input sitting exactly on the boundary:
elapsed time 3 with threshold 3 takes the cached-update branch. -/
theorem check_and_force_update_decision_witness :
    if (5 : Int) - v3.last_updated_at > 3 then
      (check_and_force_update_vehicles apiW mgrW 5 s3 3).trace.countP
        (isForceCallFor v3.id) = 1 ∧
      (check_and_force_update_vehicles apiW mgrW 5 s3 3).trace.countP
        (isCachedCallFor v3.id) = 0
    else
      (check_and_force_update_vehicles apiW mgrW 5 s3 3).trace.countP
        (isCachedCallFor v3.id) = 1 ∧
      (check_and_force_update_vehicles apiW mgrW 5 s3 3).trace.countP
        (isForceCallFor v3.id) = 0 :=
  check_and_force_update_decision apiW mgrW 5 3 s3 (fun _ => ⟨rfl, rfl, rfl⟩)
    (by decide) v3 (by decide)

/-- C4's theorem at a concrete input: registry holding `vW`. -/
theorem charge_port_shared_action_witness :
    (open_charge_port apiW s8 "v1").out = apiW.lock_action_result vW (.inr .OPEN) ∧
    (open_charge_port apiW s8 "v1").trace = [.lock_action vW (.inr .OPEN)] ∧
    (close_charge_port apiW s8 "v1").out = apiW.lock_action_result vW (.inr .CLOSE) ∧
    (close_charge_port apiW s8 "v1").trace = [.lock_action vW (.inr .CLOSE)] :=
  charge_port_shared_action apiW s8 "v1" vW rfl

/-- C6's theorem at a concrete input: empty registry, one fetched
vehicle. -/
theorem initializeVM_spec_witness :
    (initializeVM apiW mgrW sW).out = .ok () ∧
    (initializeVM apiW mgrW sW).state.vehicles = sW.vehicles ++ [vW] ∧
    (sW.vehicles = [] →
      (initializeVM apiW mgrW sW).state.vehicles.length = [vW].length) ∧
    (initializeVM apiW mgrW sW).trace =
      [.login mgrW.username mgrW.password (some mgrW.pin), .get_vehicles] ++
        (sW.vehicles ++ [vW]).flatMap (cachedCallTrace mgrW) :=
  initializeVM_spec apiW mgrW sW ⟨100⟩ [vW] rfl rfl (fun _ => ⟨rfl, rfl⟩)

/-- C7's theorem at a concrete input: token expired at time 0, checked at
time 5. -/
theorem login_pin_asymmetry_witness :
    (∀ (api' : ApiImpl) (mgr' : VehicleManager) (s' : MState),
      (initializeVM api' mgr' s').trace.head? =
        some (.login mgr'.username mgr'.password (some mgr'.pin))) ∧
    (check_and_refresh_token apiW mgrW 5 sExp).trace.head? =
      some (.login mgrW.username mgrW.password none) :=
  login_pin_asymmetry apiW mgrW 5 sExp ⟨0⟩ rfl (by decide)

/-- C8's theorem at a concrete input: empty registry for the failing
lookup, registry holding `vW` for the delegations, limits 80/90. -/
theorem command_dispatch_passthrough_witness :
    (lock apiW sW "v1").out =
      .error (.VehicleNotFoundError "No vehicle found with this ID") ∧
    (lock apiW s8 "v1").out = apiW.lock_action_result vW (.inl .LOCK) ∧
    (lock apiW s8 "v1").trace = [.lock_action vW (.inl .LOCK)] ∧
    (set_charge_limits apiW s8 "v1" 80 90).out =
      apiW.set_charge_limits_result vW 80 90 ∧
    (set_charge_limits apiW s8 "v1" 80 90).trace = [.set_charge_limits vW 80 90] ∧
    (∀ (s' : MState) (vehicle_id action_id : String)
        (options : ClimateRequestOptions) (ac' dc' : Int),
      (start_climate apiW s' vehicle_id options).state = s' ∧
      (stop_climate apiW s' vehicle_id).state = s' ∧
      (lock apiW s' vehicle_id).state = s' ∧
      (unlock apiW s' vehicle_id).state = s' ∧
      (start_charge apiW s' vehicle_id).state = s' ∧
      (stop_charge apiW s' vehicle_id).state = s' ∧
      (set_charge_limits apiW s' vehicle_id ac' dc').state = s' ∧
      (check_action_status apiW s' vehicle_id action_id).state = s' ∧
      (open_charge_port apiW s' vehicle_id).state = s' ∧
      (close_charge_port apiW s' vehicle_id).state = s') :=
  command_dispatch_passthrough apiW sW s8 vW 80 90 rfl rfl

/-- C9's theorem at a concrete input: registry `[vW, vBad, vLater]` under
the backend `apiF` that fails exactly on `vBad`. -/
theorem bulk_failure_propagates_witness :
    (update_all_vehicles_with_cached_state apiF mgrW
        ⟨none, [vW] ++ vBad :: [vLater]⟩).out = .error (.BackendError 7) ∧
    (update_all_vehicles_with_cached_state apiF mgrW
        ⟨none, [vW] ++ vBad :: [vLater]⟩).trace =
      ([vW] : List Vehicle).flatMap (cachedCallTrace mgrW) ++
        [.update_vehicle_with_cached_state vBad] ∧
    (force_refresh_all_vehicles_states apiF
        ⟨none, [vW] ++ vBad :: [vLater]⟩).out = .error (.BackendError 7) ∧
    (force_refresh_all_vehicles_states apiF
        ⟨none, [vW] ++ vBad :: [vLater]⟩).trace =
      ([vW] : List Vehicle).map (ApiCall.force_refresh_vehicle_state ·) ++
        [.force_refresh_vehicle_state vBad] ∧
    (check_and_force_update_vehicles apiF mgrW 10
        ⟨none, [vW] ++ vBad :: [vLater]⟩ 3).out = .error (.BackendError 7) ∧
    (check_and_force_update_vehicles apiF mgrW 10
        ⟨none, [vW] ++ vBad :: [vLater]⟩ 3).trace =
      ([vW] : List Vehicle).flatMap (stepCallTrace mgrW 10 3) ++
        [if (10 : Int) - vBad.last_updated_at > 3 then
          .force_refresh_vehicle_state vBad
         else .update_vehicle_with_cached_state vBad] :=
  bulk_failure_propagates apiF mgrW 10 3 none [vW] [vLater] vBad (.BackendError 7)
    (by decide) (by decide) (by decide)

/-- C10's theorem at a concrete input: geocoding enabled, one vehicle,
elapsed 10 with threshold 3, so only the force branch runs. -/
theorem force_refresh_no_geocode_witness :
    (∀ (s' : MState) (v : Vehicle),
      (force_refresh_vehicle_state apiW s' v).trace.countP isGeocodeCall = 0) ∧
    (check_and_force_update_vehicles apiW mgrW 10 s8 3).trace.countP
      isGeocodeCall = 0 :=
  force_refresh_no_geocode apiW mgrW 10 3 s8 (by decide)
